import Mathlib

/-!
Verification development for the portfolio-optimization service (`src/main.py`).

The service is a FastAPI endpoint `optimize_portfolio` that validates two
scalar parameters (`risk_level`, `max_weight`), validates an uploaded return
matrix, and calls `optimize_markowitz_portfolio`, which estimates statistics,
hands a constrained problem to an external SLSQP solver
(`scipy.optimize.minimize`), and post-processes the solver output into a
ticker-to-weight mapping.

The embedding below follows the source line by line:

* Exact rational arithmetic (`ℚ`) stands for Python floats.
* The external solver call is a parameter: `SolverResult` is whatever
  `scipy.optimize.minimize` returned for the built problem (the solver itself
  is third-party code, not part of this repository).
* Python exceptions are values of `PyExc`; the endpoint returns
  `Except PyExc MarkowitzOutput`, where `.error e` means the endpoint raised
  the HTTP exception `e` (after the `try`/`except` dispatch of lines 147-153).
-/

/-- A cell of the uploaded return matrix as pandas materializes it:
a finite float (modelled exactly as a rational), a non-finite float
(NaN or an infinity), or a non-numeric entry such as a string. -/
inductive Cell where
  | num (q : ℚ)
  | nan
  | posInf
  | nonNumeric (s : String)
deriving DecidableEq, Repr

/-- `np.isreal` as applied by `returns_df.applymap(np.isreal)` (line 132):
it is `True` for every real float — including NaN and the infinities,
which are real-valued floats — and `False` for non-numeric objects. -/
def Cell.isreal : Cell → Bool
  | .num _ => true
  | .nan => true
  | .posInf => true
  | .nonNumeric _ => false

/-- The parsed `returns_df`: `mm` time rows, `nn` asset columns with
their column labels (tickers). -/
structure DataFrame (mm nn : ℕ) where
  cell : Fin mm → Fin nn → Cell
  ticker : Fin nn → String

/-- `returns_df.applymap(np.isreal).all().all()` (line 132). -/
def DataFrame.allReal {mm nn : ℕ} (df : DataFrame mm nn) : Bool :=
  (List.finRange mm).all fun t => (List.finRange nn).all fun i => (df.cell t i).isreal

/-- A Python exception as far as the endpoint's `except` clauses can
distinguish them: an `HTTPException(status_code, detail)`, a `ValueError`,
or a pandas `ParserError`. -/
inductive PyExc where
  | httpExc (status : ℕ) (detail : String)
  | valueError (msg : String)
  | parserError
deriving DecidableEq, Repr

/-- `str(e)` for the exceptions above. Starlette's `HTTPException.__str__`
renders `f"{status_code}: {detail}"`; `str` of a `ValueError` is its
message. -/
def PyExc.str : PyExc → String
  | .httpExc s d => toString s ++ ": " ++ d
  | .valueError m => m
  | .parserError => "parser error"

/-- The object returned by `scipy.optimize.minimize` for the built problem,
as far as lines 77-85 consume it: the `success` flag, the status `message`,
and the solution vector `x`. The solver is external library code, so the
pipeline is modelled as a function of this result. -/
structure SolverResult (nn : ℕ) where
  success : Bool
  message : String
  x : Fin nn → ℚ

/-- What `optimize_markowitz_portfolio` produces on the success path:
the ticker-to-weight mapping in column order (line 84-86) together with
whether the non-fatal sum diagnostic of lines 89-91 fired
(`logger.warning` when `abs(weight_sum - 1.0) > 0.01`). -/
structure MarkowitzOutput where
  portfolio : List (String × ℚ)
  sumDiagnostic : Bool
deriving DecidableEq, Repr

/-- `np.round(w, 4)`: round to four decimal places. -/
def roundTo4 (q : ℚ) : ℚ := (round (q * 10000) : ℚ) / 10000

/-- Lines 84-86: pair each column ticker with its rounded weight, keeping
column order, and keep only entries whose rounded weight is strictly
greater than `0.0001` (`if weight > 0.0001`, where `weight` is the rounded
value from the `zip`). -/
def postProcess {nn : ℕ} (tickers : Fin nn → String) (x : Fin nn → ℚ) :
    List (String × ℚ) :=
  (List.finRange nn).filterMap fun i =>
    let w := roundTo4 (x i)
    if 1/10000 < w then some (tickers i, w) else none

/-- `sum(optimal_portfolio.values())` (line 89). -/
def portfolioSum (p : List (String × ℚ)) : ℚ := (p.map Prod.snd).sum

/-- Lines 77-97 of `optimize_markowitz_portfolio`, as a function of the
external solver's result. If `result.success` is false, the
`ValueError("Portfolio optimization did not converge: ...")` of line 79 is
caught by the function's own `except Exception` (line 95) and re-raised as
`ValueError("Failed to optimize portfolio: " + str(e))` (line 97).
Otherwise the rounded, filtered portfolio is returned, with the sum
diagnostic of lines 89-91 recorded as a flag. -/
def optimize_markowitz_portfolio {nn : ℕ} (tickers : Fin nn → String)
    (res : SolverResult nn) : Except PyExc MarkowitzOutput :=
  if res.success then
    let p := postProcess tickers res.x
    .ok ⟨p, decide ((1:ℚ)/100 < |portfolioSum p - 1|)⟩
  else
    .error (.valueError ("Failed to optimize portfolio: " ++
      ("Portfolio optimization did not converge: " ++ res.message)))

/-- Lines 117-121: the two parameter validations performed before the
`try` block and before the uploaded file is read. `some e` means the
check raised `e`. -/
def validateParams (riskLevel maxWeight : ℚ) : Option PyExc :=
  if riskLevel ≤ 0 then
    some (.httpExc 400 "El nivel de riesgo debe ser positivo")
  else if maxWeight ≤ 0 ∨ 1 < maxWeight then
    some (.httpExc 400 "El peso máximo debe estar entre 0 y 1")
  else
    none

/-- Detail string of line 133. -/
def numMsg : String := "El archivo debe contener solo valores numéricos"

/-- Detail string of lines 137-138, with the received row count. -/
def rowMsg (mm : ℕ) : String :=
  "Se requieren al menos 30 días de datos, se recibieron " ++ toString mm

/-- Lines 131-143, the body of the endpoint's `try` block after parsing:
the numeric check, the minimum-row check, then the call into
`optimize_markowitz_portfolio`. -/
def tryBody {mm nn : ℕ} (df : DataFrame mm nn) (res : SolverResult nn) :
    Except PyExc MarkowitzOutput :=
  if df.allReal = false then .error (.httpExc 400 numMsg)
  else if mm < 30 then .error (.httpExc 400 (rowMsg mm))
  else optimize_markowitz_portfolio df.ticker res

/-- Lines 147-153: the `except` dispatch. `ParserError` and `ValueError`
become 400 responses; every other exception — including an
`HTTPException` raised inside the `try` block, which is not a
`ValueError` — falls to the generic handler and is re-raised as a 500
whose detail embeds `str(e)`. -/
def handleExc (e : PyExc) : PyExc :=
  match e with
  | .parserError => .httpExc 400 "Error al parsear el archivo CSV"
  | .valueError m => .httpExc 400 m
  | e => .httpExc 500 ("Error en el servidor: " ++ e.str)

/-- The endpoint `optimize_portfolio` (lines 100-153): parameter
validation, then the `try` block wrapped by the `except` dispatch.
`.error e` means the request fails with HTTP exception `e`. -/
def optimize_portfolio {mm nn : ℕ} (riskLevel maxWeight : ℚ)
    (df : DataFrame mm nn) (res : SolverResult nn) :
    Except PyExc MarkowitzOutput :=
  match validateParams riskLevel maxWeight with
  | some e => .error e
  | none =>
    match tryBody df res with
    | .ok out => .ok out
    | .error e => .error (handleExc e)

/-- Whether the control flow of the endpoint reaches the call to
`optimize_markowitz_portfolio` at line 143, i.e. whether the optimizer is
invoked at all: every guard on the way there must pass. -/
def reachesOptimizer {mm nn : ℕ} (riskLevel maxWeight : ℚ)
    (df : DataFrame mm nn) : Bool :=
  (validateParams riskLevel maxWeight).isNone && df.allReal && decide (30 ≤ mm)

/-! ### Statistics estimation and the optimization problem (lines 38-74)

For these definitions the return matrix is the purely numeric
`r : Fin mm → Fin nn → ℚ` that `returns_df` holds once the numeric
validation has passed. -/

/-- `returns_df.mean()` (line 39): the arithmetic column mean,
denominator `mm` (the row count). -/
def meanRet {mm nn : ℕ} (r : Fin mm → Fin nn → ℚ) (i : Fin nn) : ℚ :=
  (∑ t, r t i) / (mm : ℚ)

/-- The mean-centered observation used inside the sample covariance. -/
def centered {mm nn : ℕ} (r : Fin mm → Fin nn → ℚ) (t : Fin mm) (i : Fin nn) : ℚ :=
  r t i - meanRet r i

/-- `returns_df.cov()` (line 40): the sample covariance matrix with
denominator `mm - 1` (the pandas default). -/
def sampleCov {mm nn : ℕ} (r : Fin mm → Fin nn → ℚ) (i j : Fin nn) : ℚ :=
  (∑ t, centered r t i * centered r t j) / ((mm : ℚ) - 1)

/-- `np.dot(weights.T, np.dot(cov_matrix, weights))` (line 51): the
quadratic form of the covariance matrix at a weight vector. -/
def quadForm {nn : ℕ} (cov : Fin nn → Fin nn → ℚ) (w : Fin nn → ℚ) : ℚ :=
  ∑ i, w i * (∑ j, cov i j * w j)

/-- The argument handed to `np.sqrt` inside `risk_constraint` (line 51):
the raw quadratic form, with no clamping applied. -/
def riskSqrtArg {nn : ℕ} (cov : Fin nn → Fin nn → ℚ) (w : Fin nn → ℚ) : ℚ :=
  quadForm cov w

/-- Modelled from the spec: the clamped square-root argument the spec
requires (`§4.3`: "the solver must clamp the argument to the square root
at zero before taking the root"). This is what line 51 would compute if
the clamp were present. -/
def riskSqrtArgClamped {nn : ℕ} (cov : Fin nn → Fin nn → ℚ) (w : Fin nn → ℚ) : ℚ :=
  max 0 (quadForm cov w)

/-- The immutable optimization problem handed to
`scipy.optimize.minimize` at lines 68-75. The risk inequality constraint
(line 50-52) has the shape `riskBound - sqrt (riskSqrtArgFun w)`; since
the square root is irrational it is represented structurally by its
bound and its square-root argument. -/
structure OptimizationProblem (nn : ℕ) where
  objective : (Fin nn → ℚ) → ℚ
  eqConstraintVal : (Fin nn → ℚ) → ℚ
  riskBound : ℚ
  riskSqrtArgFun : (Fin nn → ℚ) → ℚ
  lowerBound : Fin nn → ℚ
  upperBound : Fin nn → ℚ
  initialPoint : Fin nn → ℚ
  maxIterations : ℕ

/-- Lines 45-74 of `optimize_markowitz_portfolio`: objective (line 47),
equality constraint (line 56), risk constraint (lines 50-52, 57), bounds
(line 61), equal initial weights (line 64), and `maxiter` 1000
(line 74). -/
def buildProblem {mm nn : ℕ} (r : Fin mm → Fin nn → ℚ)
    (riskLevel maxWeight : ℚ) : OptimizationProblem nn :=
  { objective := fun w => -(∑ i, meanRet r i * w i)
    eqConstraintVal := fun w => (∑ i, w i) - 1
    riskBound := riskLevel
    riskSqrtArgFun := fun w => riskSqrtArg (sampleCov r) w
    lowerBound := fun _ => 0
    upperBound := fun _ => maxWeight
    initialPoint := fun _ => 1 / (nn : ℚ)
    maxIterations := 1000 }

/-- Modelled from the spec (`§4.4`, amended): round each weight to four
decimals, pair with the tickers in original column order, and keep the
entries whose rounded weight is strictly above `0.0001`. Written as
map-then-filter, to be compared with the `filterMap` in `postProcess`. -/
def specFinalize {nn : ℕ} (tickers : Fin nn → String) (x : Fin nn → ℚ) :
    List (String × ℚ) :=
  ((List.finRange nn).map fun i => (tickers i, roundTo4 (x i))).filter
    fun p => decide ((1:ℚ)/10000 < p.2)

/-! ### Helper lemmas about the control flow -/

lemma validateParams_eq_none {riskLevel maxWeight : ℚ} (h1 : 0 < riskLevel)
    (h2 : 0 < maxWeight) (h3 : maxWeight ≤ 1) :
    validateParams riskLevel maxWeight = none := by
  have hr : ¬ riskLevel ≤ 0 := not_le.mpr h1
  have hw : ¬ (maxWeight ≤ 0 ∨ 1 < maxWeight) := by
    push_neg
    exact ⟨h2, h3⟩
  simp [validateParams, hr, hw]

lemma validateParams_risk {riskLevel maxWeight : ℚ} (h : riskLevel ≤ 0) :
    validateParams riskLevel maxWeight =
      some (.httpExc 400 "El nivel de riesgo debe ser positivo") := by
  simp [validateParams, h]

lemma validateParams_weight {riskLevel maxWeight : ℚ} (h1 : 0 < riskLevel)
    (h2 : maxWeight ≤ 0 ∨ 1 < maxWeight) :
    validateParams riskLevel maxWeight =
      some (.httpExc 400 "El peso máximo debe estar entre 0 y 1") := by
  have hr : ¬ riskLevel ≤ 0 := not_le.mpr h1
  simp [validateParams, hr, h2]

/-- On a fully validated request with a successful solver run, the
endpoint returns the post-processed portfolio and the sum-diagnostic
flag. -/
lemma pipeline_ok {mm nn : ℕ} {riskLevel maxWeight : ℚ}
    {df : DataFrame mm nn} {res : SolverResult nn}
    (h1 : 0 < riskLevel) (h2 : 0 < maxWeight) (h3 : maxWeight ≤ 1)
    (h4 : df.allReal = true) (h5 : 30 ≤ mm) (h6 : res.success = true) :
    optimize_portfolio riskLevel maxWeight df res =
      .ok ⟨postProcess df.ticker res.x,
        decide ((1:ℚ)/100 < |portfolioSum (postProcess df.ticker res.x) - 1|)⟩ := by
  have hm : ¬ mm < 30 := not_lt.mpr h5
  simp [optimize_portfolio, validateParams_eq_none h1 h2 h3, tryBody, h4, hm,
    optimize_markowitz_portfolio, h6]

/-- On a fully validated request with a failed solver run, the
`ValueError` raised in `optimize_markowitz_portfolio` is caught by the
endpoint's `except ValueError` clause and surfaced as a 400 carrying the
solver's status message. -/
lemma pipeline_nonconv {mm nn : ℕ} {riskLevel maxWeight : ℚ}
    {df : DataFrame mm nn} {res : SolverResult nn}
    (h1 : 0 < riskLevel) (h2 : 0 < maxWeight) (h3 : maxWeight ≤ 1)
    (h4 : df.allReal = true) (h5 : 30 ≤ mm) (h6 : res.success = false) :
    optimize_portfolio riskLevel maxWeight df res =
      .error (.httpExc 400 ("Failed to optimize portfolio: " ++
        ("Portfolio optimization did not converge: " ++ res.message))) := by
  have hm : ¬ mm < 30 := not_lt.mpr h5
  simp [optimize_portfolio, validateParams_eq_none h1 h2 h3, tryBody, h4, hm,
    optimize_markowitz_portfolio, h6, handleExc]

/-- When the numeric check fails, the `HTTPException(400)` of line 133 is
caught by the generic handler and re-raised as a 500. -/
lemma pipeline_badNum {mm nn : ℕ} {riskLevel maxWeight : ℚ}
    {df : DataFrame mm nn} {res : SolverResult nn}
    (h1 : 0 < riskLevel) (h2 : 0 < maxWeight) (h3 : maxWeight ≤ 1)
    (h4 : df.allReal = false) :
    optimize_portfolio riskLevel maxWeight df res =
      .error (.httpExc 500 ("Error en el servidor: " ++ ("400: " ++ numMsg))) := by
  have h400 : (toString (400:ℕ) ++ ": " : String) = "400: " := by decide
  simp [optimize_portfolio, validateParams_eq_none h1 h2 h3, tryBody, h4,
    handleExc, PyExc.str, h400]

/-- When the minimum-row check fails, the `HTTPException(400)` of
lines 137-138 is caught by the generic handler and re-raised as a 500
whose detail still embeds the received row count. -/
lemma pipeline_fewRows {mm nn : ℕ} {riskLevel maxWeight : ℚ}
    {df : DataFrame mm nn} {res : SolverResult nn}
    (h1 : 0 < riskLevel) (h2 : 0 < maxWeight) (h3 : maxWeight ≤ 1)
    (h4 : df.allReal = true) (h5 : mm < 30) :
    optimize_portfolio riskLevel maxWeight df res =
      .error (.httpExc 500 ("Error en el servidor: " ++ ("400: " ++ rowMsg mm))) := by
  have h400 : (toString (400:ℕ) ++ ": " : String) = "400: " := by decide
  simp [optimize_portfolio, validateParams_eq_none h1 h2 h3, tryBody, h4, h5,
    handleExc, PyExc.str, h400]

lemma reachesOptimizer_true {mm nn : ℕ} {riskLevel maxWeight : ℚ}
    {df : DataFrame mm nn}
    (h1 : 0 < riskLevel) (h2 : 0 < maxWeight) (h3 : maxWeight ≤ 1)
    (h4 : df.allReal = true) (h5 : 30 ≤ mm) :
    reachesOptimizer riskLevel maxWeight df = true := by
  simp [reachesOptimizer, validateParams_eq_none h1 h2 h3, h4, h5]

/-! ### Helper lemmas about the post-processing -/

lemma roundTo4_le_add (q : ℚ) : roundTo4 q ≤ q + 1/20000 := by
  have h := abs_sub_round (q * 10000)
  rw [abs_le] at h
  rw [roundTo4]
  have h2 : (round (q * 10000) : ℚ) ≤ q * 10000 + 1/2 := by linarith [h.1]
  calc (round (q * 10000) : ℚ) / 10000 ≤ (q * 10000 + 1/2) / 10000 := by gcongr
    _ = q + 1/20000 := by ring

lemma mem_postProcess {nn : ℕ} {tickers : Fin nn → String} {x : Fin nn → ℚ}
    {tw : String × ℚ} (h : tw ∈ postProcess tickers x) :
    ∃ i : Fin nn, (1:ℚ)/10000 < roundTo4 (x i) ∧ tw = (tickers i, roundTo4 (x i)) := by
  rw [postProcess, List.mem_filterMap] at h
  obtain ⟨i, -, hi⟩ := h
  by_cases hc : (1:ℚ)/10000 < roundTo4 (x i)
  · rw [if_pos hc] at hi
    exact ⟨i, hc, (Option.some_injective _ hi).symm⟩
  · rw [if_neg hc] at hi
    exact absurd hi (Option.noConfusion)

lemma postProcess_eq_specFinalize {nn : ℕ} (tickers : Fin nn → String)
    (x : Fin nn → ℚ) : postProcess tickers x = specFinalize tickers x := by
  rw [postProcess, specFinalize]
  induction List.finRange nn with
  | nil => rfl
  | cons a l ih =>
    simp only [List.filterMap_cons, List.map_cons, List.filter_cons]
    by_cases hc : (1:ℚ)/10000 < roundTo4 (x a)
    · rw [if_pos hc, ih, if_pos (by simpa using hc)]
    · rw [if_neg hc, ih, if_neg (by simpa using hc)]

/-! ### Concrete inputs used by witnesses and counterexamples -/

/-- An all-numeric return matrix (all cells 0), tickers named by column
index. Only the shape and cell kinds matter to the claims below: the
solver result is a parameter of the pipeline. -/
def dfNum (mm nn : ℕ) : DataFrame mm nn :=
  ⟨fun _ _ => .num 0, fun i => toString i.val⟩

/-- A 30-row, 2-column matrix whose first cell is NaN and which is
otherwise numeric. -/
def dfNaN : DataFrame 30 2 :=
  ⟨fun t i => if t.val = 0 ∧ i.val = 0 then .nan else .num 0, fun i => toString i.val⟩

/-- A matrix whose first cell is a non-numeric string. -/
def dfStr (mm nn : ℕ) : DataFrame mm nn :=
  ⟨fun t i => if t.val = 0 ∧ i.val = 0 then .nonNumeric "x" else .num 0,
   fun i => toString i.val⟩

/-- A solver result reporting non-convergence. -/
def resFail (nn : ℕ) : SolverResult nn := ⟨false, "stalled", fun _ => 0⟩

/-- A successful equal-weight solver result for two assets. -/
def resOK : SolverResult 2 := ⟨true, "", fun _ => 1/2⟩

/-- Inversion: if the endpoint returned a portfolio, then every guard
passed, the solver reported success, and the output is exactly the
post-processed solver vector with the sum-diagnostic flag. -/
lemma pipeline_ok_inv {mm nn : ℕ} {riskLevel maxWeight : ℚ}
    {df : DataFrame mm nn} {res : SolverResult nn} {out : MarkowitzOutput}
    (hok : optimize_portfolio riskLevel maxWeight df res = .ok out) :
    out = ⟨postProcess df.ticker res.x,
        decide ((1:ℚ)/100 < |portfolioSum (postProcess df.ticker res.x) - 1|)⟩ ∧
      res.success = true ∧ df.allReal = true ∧ 30 ≤ mm := by
  unfold optimize_portfolio at hok
  split at hok
  · exact Except.noConfusion hok
  · split at hok
    · rename_i o hto
      simp only [Except.ok.injEq] at hok
      subst hok
      unfold tryBody at hto
      split at hto
      · exact Except.noConfusion hto
      · rename_i hreal
        split at hto
        · exact Except.noConfusion hto
        · rename_i hrows
          unfold optimize_markowitz_portfolio at hto
          split at hto
          · rename_i hsucc
            simp only [Except.ok.injEq] at hto
            refine ⟨hto.symm, hsucc, ?_, ?_⟩
            · simpa using hreal
            · simpa using hrows
          · exact Except.noConfusion hto
    · exact Except.noConfusion hok

/-! ### Claim C3 -/

/-- C3: on every input on which the solver does not converge
(`result.success` false), the pipeline raises a distinguished failure —
an HTTP 400 whose detail carries the solver's status message wrapped in
the non-convergence text of lines 79 and 97 — and never returns a weight
mapping, a default, or an empty result on that path. -/
theorem C3_nonconvergence_distinguished {mm nn : ℕ} (riskLevel maxWeight : ℚ)
    (df : DataFrame mm nn) (res : SolverResult nn)
    (h1 : 0 < riskLevel) (h2 : 0 < maxWeight) (h3 : maxWeight ≤ 1)
    (h4 : df.allReal = true) (h5 : 30 ≤ mm) (h6 : res.success = false) :
    optimize_portfolio riskLevel maxWeight df res =
      .error (.httpExc 400 ("Failed to optimize portfolio: " ++
        ("Portfolio optimization did not converge: " ++ res.message))) ∧
    ∀ out : MarkowitzOutput,
      optimize_portfolio riskLevel maxWeight df res ≠ .ok out := by
  refine ⟨pipeline_nonconv h1 h2 h3 h4 h5 h6, fun out hcontra => ?_⟩
  rw [pipeline_nonconv h1 h2 h3 h4 h5 h6] at hcontra
  exact Except.noConfusion hcontra

/-- Witness for C3 at a concrete non-convergent solver result: the
response is the 400 failure embedding the solver message "stalled". -/
theorem C3_witness :
    optimize_portfolio 1 (1/2) (dfNum 30 2) (resFail 2) =
      .error (.httpExc 400 ("Failed to optimize portfolio: " ++
        ("Portfolio optimization did not converge: " ++ "stalled"))) :=
  (C3_nonconvergence_distinguished 1 (1/2) (dfNum 30 2) (resFail 2)
    (by norm_num) (by norm_num) (by norm_num) (by decide) (by norm_num) rfl).1

/-! ### Claim C10 -/

/-- C10: an `HTTPException` raised inside the endpoint's `try` block —
by the non-numeric-input check (line 133) or the minimum-row check
(lines 136-138) — is not re-raised as-is: it falls through the
`ParserError` and `ValueError` clauses to the generic handler (line 151)
and is replaced by a status-500 error whose detail embeds the original
message, so these two validation failures reach the client as 500 server
errors rather than 400 client errors. -/
theorem C10_try_block_httpexc_becomes_500 {mm nn : ℕ} (riskLevel maxWeight : ℚ)
    (df : DataFrame mm nn) (res : SolverResult nn)
    (h1 : 0 < riskLevel) (h2 : 0 < maxWeight) (h3 : maxWeight ≤ 1) :
    (df.allReal = false →
      optimize_portfolio riskLevel maxWeight df res =
        .error (.httpExc 500 ("Error en el servidor: " ++ ("400: " ++ numMsg)))) ∧
    (df.allReal = true → mm < 30 →
      optimize_portfolio riskLevel maxWeight df res =
        .error (.httpExc 500 ("Error en el servidor: " ++ ("400: " ++ rowMsg mm)))) :=
  ⟨fun h4 => pipeline_badNum h1 h2 h3 h4,
   fun h4 h5 => pipeline_fewRows h1 h2 h3 h4 h5⟩

/-- Witness for C10: a non-numeric matrix and a 10-row matrix, both with
valid parameters, produce the 500 responses embedding the original 400
details. -/
theorem C10_witness :
    optimize_portfolio 1 (1/2) (dfStr 30 2) (resFail 2) =
      .error (.httpExc 500 ("Error en el servidor: " ++ ("400: " ++ numMsg))) ∧
    optimize_portfolio 1 (1/2) (dfNum 10 2) (resFail 2) =
      .error (.httpExc 500 ("Error en el servidor: " ++ ("400: " ++ rowMsg 10))) :=
  ⟨(C10_try_block_httpexc_becomes_500 1 (1/2) (dfStr 30 2) (resFail 2)
      (by norm_num) (by norm_num) (by norm_num)).1 (by decide),
   (C10_try_block_httpexc_becomes_500 1 (1/2) (dfNum 10 2) (resFail 2)
      (by norm_num) (by norm_num) (by norm_num)).2 (by decide) (by norm_num)⟩

/-! ### Claim C7 -/

/-- C7 counterexample: the claim as stated — for every request,
`riskLevel <= 0` fails with the risk-level error AND `maxWeight` outside
`(0,1]` fails with the weight-bound error — is false: at
`riskLevel = -1, maxWeight = 2` both antecedents hold but the endpoint
raises only the risk-level error, not the weight-bound error. -/
theorem C7_counterexample :
    ¬ (∀ (riskLevel maxWeight : ℚ) (df : DataFrame 30 2) (res : SolverResult 2),
        (riskLevel ≤ 0 →
          optimize_portfolio riskLevel maxWeight df res =
            .error (.httpExc 400 "El nivel de riesgo debe ser positivo")) ∧
        (maxWeight ≤ 0 ∨ 1 < maxWeight →
          optimize_portfolio riskLevel maxWeight df res =
            .error (.httpExc 400 "El peso máximo debe estar entre 0 y 1"))) := by
  intro h
  have h1 := (h (-1) 2 (dfNum 30 2) (resFail 2)).1 (by norm_num)
  have h2 := (h (-1) 2 (dfNum 30 2) (resFail 2)).2 (Or.inr (by norm_num))
  rw [h1] at h2
  simp only [Except.error.injEq, PyExc.httpExc.injEq] at h2
  exact absurd h2.2 (by decide)

/-- C7 (amended): `riskLevel <= 0` fails with the risk-level error;
otherwise `maxWeight` outside `(0,1]` fails with the weight-bound error
(the risk check has priority when both are invalid). Both checks are
eager: the response is the same for every matrix and every solver
result, i.e. it is produced before the file is processed and before any
optimization work. -/
theorem C7_param_validation_eager {mm nn : ℕ} (riskLevel maxWeight : ℚ)
    (df df2 : DataFrame mm nn) (res res2 : SolverResult nn) :
    (riskLevel ≤ 0 →
      optimize_portfolio riskLevel maxWeight df res =
        .error (.httpExc 400 "El nivel de riesgo debe ser positivo")) ∧
    (0 < riskLevel → maxWeight ≤ 0 ∨ 1 < maxWeight →
      optimize_portfolio riskLevel maxWeight df res =
        .error (.httpExc 400 "El peso máximo debe estar entre 0 y 1")) ∧
    (riskLevel ≤ 0 ∨ maxWeight ≤ 0 ∨ 1 < maxWeight →
      optimize_portfolio riskLevel maxWeight df res =
        optimize_portfolio riskLevel maxWeight df2 res2) := by
  refine ⟨fun h => ?_, fun h1 h2 => ?_, fun h => ?_⟩
  · simp [optimize_portfolio, validateParams_risk h]
  · simp [optimize_portfolio, validateParams_weight h1 h2]
  · by_cases hr : riskLevel ≤ 0
    · simp [optimize_portfolio, validateParams_risk hr]
    · have h2 : maxWeight ≤ 0 ∨ 1 < maxWeight := h.resolve_left hr
      simp [optimize_portfolio, validateParams_weight (not_le.mp hr) h2]

/-- Witness for C7 at concrete invalid parameters: rejected requests for
`riskLevel = -1` and for `maxWeight = 2`, each with the matching 400
detail, the latter independent of the uploaded matrix. -/
theorem C7_witness :
    optimize_portfolio (-1) (1/2) (dfNum 30 2) (resFail 2) =
      .error (.httpExc 400 "El nivel de riesgo debe ser positivo") ∧
    optimize_portfolio 1 2 (dfNum 30 2) (resFail 2) =
      .error (.httpExc 400 "El peso máximo debe estar entre 0 y 1") ∧
    optimize_portfolio (-1) (1/2) (dfNum 30 2) (resFail 2) =
      optimize_portfolio (-1) (1/2) (dfStr 30 2) resOK :=
  ⟨(C7_param_validation_eager (-1) (1/2) (dfNum 30 2) (dfNum 30 2) (resFail 2)
      (resFail 2)).1 (by norm_num),
   (C7_param_validation_eager 1 2 (dfNum 30 2) (dfNum 30 2) (resFail 2)
      (resFail 2)).2.1 (by norm_num) (Or.inr (by norm_num)),
   (C7_param_validation_eager (-1) (1/2) (dfNum 30 2) (dfStr 30 2) (resFail 2)
      resOK).2.2 (Or.inl (by norm_num))⟩

/-! ### Claim C6 -/

/-- C6 counterexample: the claim quantifies over every matrix with fewer
than 30 rows, but a 10-row matrix containing a non-numeric value fails
the numeric check first (line 132 precedes line 136): the response is
the non-numeric detail, which is not the row-count error. -/
theorem C6_counterexample :
    ¬ (∀ (riskLevel maxWeight : ℚ) (df : DataFrame 10 2) (res : SolverResult 2),
        0 < riskLevel → 0 < maxWeight → maxWeight ≤ 1 →
        optimize_portfolio riskLevel maxWeight df res =
          .error (.httpExc 500 ("Error en el servidor: " ++ ("400: " ++ rowMsg 10)))) := by
  intro h
  have h1 := h 1 (1/2) (dfStr 10 2) (resFail 2) (by norm_num) (by norm_num) (by norm_num)
  rw [pipeline_badNum (by norm_num) (by norm_num) (by norm_num) (by decide)] at h1
  simp only [Except.error.injEq, PyExc.httpExc.injEq] at h1
  exact absurd h1.2 (by decide)

/-- C6 (amended): every matrix with fewer than 30 rows all of whose
cells pass the numeric check fails before any optimization attempt (the
optimizer is never invoked), and the error detail embeds the received
row count; the failure is surfaced as a status-500 wrapping of the 400
raised at lines 137-138. -/
theorem C6_insufficient_rows {mm nn : ℕ} (riskLevel maxWeight : ℚ)
    (df : DataFrame mm nn) (res : SolverResult nn)
    (h1 : 0 < riskLevel) (h2 : 0 < maxWeight) (h3 : maxWeight ≤ 1)
    (h4 : df.allReal = true) (h5 : mm < 30) :
    optimize_portfolio riskLevel maxWeight df res =
      .error (.httpExc 500 ("Error en el servidor: " ++ ("400: " ++ rowMsg mm))) ∧
    reachesOptimizer riskLevel maxWeight df = false := by
  refine ⟨pipeline_fewRows h1 h2 h3 h4 h5, ?_⟩
  have h6 : ¬ 30 ≤ mm := not_le.mpr h5
  simp [reachesOptimizer, h6]

/-- Witness for C6 at a 10-row numeric matrix: the response embeds the
row count 10 and the optimizer is not reached. -/
theorem C6_witness :
    optimize_portfolio 1 (1/2) (dfNum 10 2) (resFail 2) =
      .error (.httpExc 500 ("Error en el servidor: " ++ ("400: " ++ rowMsg 10))) ∧
    reachesOptimizer 1 (1/2) (dfNum 10 2) = false :=
  C6_insufficient_rows 1 (1/2) (dfNum 10 2) (resFail 2)
    (by norm_num) (by norm_num) (by norm_num) (by decide) (by norm_num)

/-! ### Claim C5 -/

/-- C5 counterexample: the claim fails on both counts. First, a matrix
containing a non-numeric value does fail before optimization, but not as
a 400: the `HTTPException(400)` of line 133 is swallowed by the generic
handler and resurfaces as a 500. Second, a matrix containing a
non-finite value (NaN) passes the `np.isreal` check entirely — NaN is a
real-valued float — so the pipeline does not fail before optimization:
the optimizer is invoked. -/
theorem C5_counterexample :
    (¬ ∀ (riskLevel maxWeight : ℚ) (df : DataFrame 30 2) (res : SolverResult 2),
        0 < riskLevel → 0 < maxWeight → maxWeight ≤ 1 →
        (∃ t i, (df.cell t i).isreal = false) →
        optimize_portfolio riskLevel maxWeight df res =
          .error (.httpExc 400 numMsg)) ∧
    (¬ ∀ (riskLevel maxWeight : ℚ) (df : DataFrame 30 2),
        0 < riskLevel → 0 < maxWeight → maxWeight ≤ 1 →
        (∃ t i, df.cell t i = Cell.nan) →
        reachesOptimizer riskLevel maxWeight df = false) := by
  constructor
  · intro h
    have h1 := h 1 (1/2) (dfStr 30 2) (resFail 2) (by norm_num) (by norm_num)
      (by norm_num) ⟨0, 0, by decide⟩
    rw [pipeline_badNum (by norm_num) (by norm_num) (by norm_num) (by decide)] at h1
    simp only [Except.error.injEq, PyExc.httpExc.injEq] at h1
    exact absurd h1.1 (by decide)
  · intro h
    have h1 := h 1 (1/2) dfNaN (by norm_num) (by norm_num) (by norm_num)
      ⟨0, 0, by decide⟩
    rw [reachesOptimizer_true (by norm_num) (by norm_num) (by norm_num)
      (by decide) (by norm_num)] at h1
    exact Bool.noConfusion h1

/-- C5 (amended): a matrix containing a non-numeric value fails at the
line-132 check before any optimization is attempted, but the failure is
surfaced as a status-500 server error embedding the original message
rather than a 400 validation failure; a matrix whose values are all
real —  including non-finite values such as NaN or infinity, which
`np.isreal` accepts — passes the check, and with at least 30 rows the
optimizer is invoked. -/
theorem C5_nonnumeric_and_nonfinite {mm nn : ℕ} (riskLevel maxWeight : ℚ)
    (df : DataFrame mm nn) (res : SolverResult nn)
    (h1 : 0 < riskLevel) (h2 : 0 < maxWeight) (h3 : maxWeight ≤ 1) :
    (df.allReal = false →
      optimize_portfolio riskLevel maxWeight df res =
        .error (.httpExc 500 ("Error en el servidor: " ++ ("400: " ++ numMsg))) ∧
      reachesOptimizer riskLevel maxWeight df = false) ∧
    (df.allReal = true → 30 ≤ mm →
      reachesOptimizer riskLevel maxWeight df = true) := by
  refine ⟨fun h4 => ⟨pipeline_badNum h1 h2 h3 h4, ?_⟩,
    fun h4 h5 => reachesOptimizer_true h1 h2 h3 h4 h5⟩
  simp [reachesOptimizer, h4]

/-- Witness for C5: the non-numeric matrix produces the wrapped 500 and
never reaches the optimizer; the NaN matrix (all cells real in the
`np.isreal` sense) reaches the optimizer. -/
theorem C5_witness :
    (optimize_portfolio 1 (1/2) (dfStr 30 2) (resFail 2) =
      .error (.httpExc 500 ("Error en el servidor: " ++ ("400: " ++ numMsg))) ∧
    reachesOptimizer 1 (1/2) (dfStr 30 2) = false) ∧
    reachesOptimizer 1 (1/2) dfNaN = true :=
  ⟨(C5_nonnumeric_and_nonfinite 1 (1/2) (dfStr 30 2) (resFail 2)
      (by norm_num) (by norm_num) (by norm_num)).1 (by decide),
   (C5_nonnumeric_and_nonfinite 1 (1/2) dfNaN (resFail 2)
      (by norm_num) (by norm_num) (by norm_num)).2 (by decide) (by norm_num)⟩

/-! ### Claim C2 -/

/-- C2 counterexample: the claim requires that for `n * maxWeight < 1`
the optimizer is never invoked (an `InfeasibleBoundsError` is raised
first). No such pre-check exists: with `n = 2` assets and
`maxWeight = 0.3` (so `n * maxWeight = 0.6 < 1`), a valid 30-row numeric
matrix reaches the optimizer call at line 143. -/
theorem C2_counterexample :
    ¬ (∀ (mm nn : ℕ) (df : DataFrame mm nn) (riskLevel maxWeight : ℚ),
        0 < riskLevel → 0 < maxWeight → maxWeight ≤ 1 →
        df.allReal = true → 30 ≤ mm → (nn : ℚ) * maxWeight < 1 →
        reachesOptimizer riskLevel maxWeight df = false) := by
  intro h
  have h1 := h 30 2 (dfNum 30 2) 1 (3/10) (by norm_num) (by norm_num)
    (by norm_num) (by decide) (by norm_num) (by norm_num)
  rw [reachesOptimizer_true (by norm_num) (by norm_num) (by norm_num)
    (by decide) (by norm_num)] at h1
  exact Bool.noConfusion h1

/-- C2 (amended): no infeasibility pre-check exists. For every input
with `n * maxWeight < 1` that passes the parameter and matrix
validations, the optimizer is invoked anyway; when the solver then fails
to converge, the pipeline surfaces the non-convergence `ValueError` as a
400 failure — never an `InfeasibleBoundsError` before optimization. -/
theorem C2_no_infeasibility_precheck {mm nn : ℕ} (riskLevel maxWeight : ℚ)
    (df : DataFrame mm nn) (res : SolverResult nn)
    (h1 : 0 < riskLevel) (h2 : 0 < maxWeight) (h3 : maxWeight ≤ 1)
    (h4 : df.allReal = true) (h5 : 30 ≤ mm)
    (_h6 : (nn : ℚ) * maxWeight < 1) (h7 : res.success = false) :
    reachesOptimizer riskLevel maxWeight df = true ∧
    optimize_portfolio riskLevel maxWeight df res =
      .error (.httpExc 400 ("Failed to optimize portfolio: " ++
        ("Portfolio optimization did not converge: " ++ res.message))) :=
  ⟨reachesOptimizer_true h1 h2 h3 h4 h5, pipeline_nonconv h1 h2 h3 h4 h5 h7⟩

/-- Witness for C2 at `n = 2`, `maxWeight = 0.3`: the infeasible-bounds
input reaches the optimizer and the non-convergent run surfaces as the
400 non-convergence failure. -/
theorem C2_witness :
    reachesOptimizer 1 (3/10) (dfNum 30 2) = true ∧
    optimize_portfolio 1 (3/10) (dfNum 30 2) (resFail 2) =
      .error (.httpExc 400 ("Failed to optimize portfolio: " ++
        ("Portfolio optimization did not converge: " ++ "stalled"))) :=
  C2_no_infeasibility_precheck 1 (3/10) (dfNum 30 2) (resFail 2)
    (by norm_num) (by norm_num) (by norm_num) (by decide) (by norm_num)
    (by norm_num) rfl

/-! ### Claim C4 -/

/-- A successful solver result whose second weight rounds to exactly
`0.0001`. -/
def resC4 : SolverResult 2 := ⟨true, "", ![9999/10000, 1/10000]⟩

lemma postProcess_resC4 :
    postProcess !["A", "B"] resC4.x = [("A", (9999:ℚ)/10000)] := by
  have e0 : roundTo4 (resC4.x 0) = 9999/10000 := by
    norm_num [resC4, roundTo4, round_eq, Matrix.cons_val_zero]
  have e1 : roundTo4 (resC4.x 1) = 1/10000 := by
    norm_num [resC4, roundTo4, round_eq, Matrix.cons_val_one, Matrix.head_cons]
  rw [postProcess, show List.finRange 2 = [0, 1] from by decide]
  simp only [List.filterMap_cons, List.filterMap_nil, e0, e1]
  rw [if_pos (by norm_num), if_neg (by norm_num)]
  simp [Matrix.cons_val_zero]

lemma markowitz_resC4_eval :
    optimize_markowitz_portfolio !["A", "B"] resC4 =
      .ok ⟨[("A", (9999:ℚ)/10000)], false⟩ := by
  rw [optimize_markowitz_portfolio]
  rw [if_pos (show resC4.success = true from rfl)]
  rw [postProcess_resC4]
  have habs : |portfolioSum [("A", (9999:ℚ)/10000)] - 1| = 1/10000 := by
    rw [show portfolioSum [("A", (9999:ℚ)/10000)] = 9999/10000 from by
      simp [portfolioSum]]
    rw [abs_of_nonpos (by norm_num)]
    norm_num
  show (Except.ok ⟨[("A", (9999:ℚ)/10000)],
    decide ((1:ℚ)/100 < |portfolioSum [("A", (9999:ℚ)/10000)] - 1|)⟩ :
      Except PyExc MarkowitzOutput) = _
  rw [show decide ((1:ℚ)/100 < |portfolioSum [("A", (9999:ℚ)/10000)] - 1|) = false from by
    rw [habs]; norm_num]

/-- C4 counterexample: the claim states that an entry whose rounded
weight is equal to or above `0.0001` is retained. The filter at line 86
is strict (`weight > 0.0001`), so a weight that rounds to exactly
`0.0001` is dropped: with solver output `(0.9999, 0.0001)`, the second
asset is absent from the returned mapping. -/
theorem C4_counterexample :
    ¬ (∀ (nn : ℕ) (tickers : Fin nn → String) (res : SolverResult nn)
        (out : MarkowitzOutput),
        res.success = true →
        optimize_markowitz_portfolio tickers res = .ok out →
        ∀ i : Fin nn, (1:ℚ)/10000 ≤ roundTo4 (res.x i) →
          (tickers i, roundTo4 (res.x i)) ∈ out.portfolio) := by
  intro h
  have e1 : roundTo4 (resC4.x 1) = 1/10000 := by
    norm_num [resC4, roundTo4, round_eq, Matrix.cons_val_one, Matrix.head_cons]
  have h1 := h 2 !["A", "B"] resC4 ⟨[("A", (9999:ℚ)/10000)], false⟩ rfl
    markowitz_resC4_eval 1 (le_of_eq e1.symm)
  simp only [e1, Matrix.cons_val_one, Matrix.head_cons, List.mem_singleton,
    Prod.mk.injEq] at h1
  exact absurd h1.1 (by decide)

/-- C4 (amended): for every converged solver result, the returned map is
exactly `specFinalize`: each weight rounded to 4 decimal places, paired
with asset identifiers in the original column order, retaining precisely
the entries whose rounded weight is strictly greater than `0.0001` (an
entry equal to `0.0001` is dropped); the sum diagnostic fires exactly
when the retained sum deviates from `1.0` by more than `0.01`, and it
does not change the returned map (no renormalization). -/
theorem C4_postprocessing_spec {nn : ℕ} (tickers : Fin nn → String)
    (res : SolverResult nn) (h : res.success = true) :
    optimize_markowitz_portfolio tickers res =
      .ok ⟨specFinalize tickers res.x,
        decide ((1:ℚ)/100 < |portfolioSum (specFinalize tickers res.x) - 1|)⟩ := by
  rw [optimize_markowitz_portfolio, if_pos h, postProcess_eq_specFinalize]

/-- Witness for C4 at the concrete solver output `(0.9999, 0.0001)`: the
post-processed map keeps only the first asset (the entry rounding to
exactly `0.0001` is dropped). -/
theorem C4_witness :
    optimize_markowitz_portfolio !["A", "B"] resC4 =
      .ok ⟨specFinalize !["A", "B"] resC4.x,
        decide ((1:ℚ)/100 < |portfolioSum (specFinalize !["A", "B"] resC4.x) - 1|)⟩ ∧
    specFinalize !["A", "B"] resC4.x = [("A", (9999:ℚ)/10000)] :=
  ⟨C4_postprocessing_spec !["A", "B"] resC4 rfl,
   by rw [← postProcess_eq_specFinalize, postProcess_resC4]⟩

/-! ### Claim C1 -/

/-- A feasible exact solver output with 73 assets: weight `0.98992` on
the first asset and `0.00014` on each of the other 72, summing exactly
to `1` with every component inside `[0, 1]`. After rounding, the 72
small entries round to `0.0001` and are dropped, so the retained sum is
`0.9899`. -/
def xA : Fin 73 → ℚ := fun i => if i.val = 0 then 6187/6250 else 7/50000

/-- Successful solver result carrying `xA`. -/
def resA : SolverResult 73 := ⟨true, "", xA⟩

/-- A per-asset cap of `0.55556`. -/
def mwB : ℚ := 13889/25000

/-- A feasible exact solver output for two assets under the cap `mwB`:
`(0.555555, 0.444445)`, summing exactly to `1`, each within the cap.
Rounding pushes the first weight to `0.5556`, above the cap. -/
def resB : SolverResult 2 := ⟨true, "", ![111111/200000, 88889/200000]⟩

lemma roundTo4_xA_zero : roundTo4 (xA 0) = 9899/10000 := by
  norm_num [xA, Fin.val_zero, roundTo4, round_eq]

lemma roundTo4_xA_succ (b : Fin 72) : roundTo4 (xA b.succ) = 1/10000 := by
  norm_num [xA, Fin.val_succ, roundTo4, round_eq]

lemma postProcess_xA :
    postProcess (dfNum 30 73).ticker xA = [((dfNum 30 73).ticker 0, (9899:ℚ)/10000)] := by
  have hpos : (1:ℚ)/10000 < 9899/10000 := by norm_num
  have hneg : ¬ ((1:ℚ)/10000 < 1/10000) := by norm_num
  rw [postProcess, List.finRange_succ]
  simp only [List.filterMap_cons, List.filterMap_map, Function.comp_def]
  simp only [roundTo4_xA_zero, roundTo4_xA_succ, hpos, hneg, if_true, if_false]
  simp [List.filterMap_eq_nil_iff]

lemma sum_xA : ∑ i, xA i = 1 := by
  rw [Fin.sum_univ_succ]
  rw [show xA 0 = 6187/6250 from by norm_num [xA, Fin.val_zero]]
  rw [Finset.sum_congr rfl fun b _ => show xA b.succ = 7/50000 from by
    norm_num [xA, Fin.val_succ]]
  rw [Finset.sum_const, Finset.card_univ, Fintype.card_fin, nsmul_eq_mul]
  norm_num

lemma bounds_xA : ∀ i, 0 ≤ xA i ∧ xA i ≤ 1 := by
  intro i
  by_cases h : i.val = 0 <;> constructor <;> simp [xA, h] <;> norm_num

lemma postProcess_resB :
    postProcess (dfNum 30 2).ticker resB.x =
      [((dfNum 30 2).ticker 0, (5556:ℚ)/10000), ((dfNum 30 2).ticker 1, (4444:ℚ)/10000)] := by
  have e0 : roundTo4 (resB.x 0) = 5556/10000 := by
    norm_num [resB, roundTo4, round_eq, Matrix.cons_val_zero]
  have e1 : roundTo4 (resB.x 1) = 4444/10000 := by
    norm_num [resB, roundTo4, round_eq, Matrix.cons_val_one, Matrix.head_cons]
  rw [postProcess, show List.finRange 2 = [0, 1] from by decide]
  simp only [List.filterMap_cons, List.filterMap_nil, e0, e1]
  rw [if_pos (by norm_num), if_pos (by norm_num)]

/-- C1 counterexample: both conjuncts of the claim fail even for an
exactly feasible, successful solver output. First, with 73 assets the
returned sum can deviate from `1.0` by more than `0.01` (the map is
returned anyway, with only a diagnostic). Second, rounding can push a
returned weight strictly above `maxWeight`. -/
theorem C1_counterexample :
    (¬ ∀ (mm nn : ℕ) (riskLevel maxWeight : ℚ) (df : DataFrame mm nn)
        (res : SolverResult nn) (out : MarkowitzOutput),
        0 < riskLevel → 0 < maxWeight → maxWeight ≤ 1 →
        res.success = true → (∀ i, 0 ≤ res.x i ∧ res.x i ≤ maxWeight) →
        (∑ i, res.x i) = 1 →
        optimize_portfolio riskLevel maxWeight df res = .ok out →
        |portfolioSum out.portfolio - 1| ≤ 1/100) ∧
    (¬ ∀ (mm nn : ℕ) (riskLevel maxWeight : ℚ) (df : DataFrame mm nn)
        (res : SolverResult nn) (out : MarkowitzOutput),
        0 < riskLevel → 0 < maxWeight → maxWeight ≤ 1 →
        res.success = true → (∀ i, 0 ≤ res.x i ∧ res.x i ≤ maxWeight) →
        (∑ i, res.x i) = 1 →
        optimize_portfolio riskLevel maxWeight df res = .ok out →
        ∀ tw ∈ out.portfolio, 0 ≤ tw.2 ∧ tw.2 ≤ maxWeight) := by
  constructor
  · intro h
    have hok : optimize_portfolio 1 1 (dfNum 30 73) resA =
        .ok ⟨[((dfNum 30 73).ticker 0, (9899:ℚ)/10000)], true⟩ := by
      rw [pipeline_ok (by norm_num) (by norm_num) (by norm_num) (by decide)
        (by norm_num) rfl]
      rw [show resA.x = xA from rfl, postProcess_xA]
      show (Except.ok ⟨[((dfNum 30 73).ticker 0, (9899:ℚ)/10000)],
        decide ((1:ℚ)/100 <
          |portfolioSum [((dfNum 30 73).ticker 0, (9899:ℚ)/10000)] - 1|)⟩ :
          Except PyExc MarkowitzOutput) = _
      rw [show decide ((1:ℚ)/100 <
          |portfolioSum [((dfNum 30 73).ticker 0, (9899:ℚ)/10000)] - 1|) = true from by
        rw [show portfolioSum [((dfNum 30 73).ticker 0, (9899:ℚ)/10000)] = 9899/10000
          from by simp [portfolioSum]]
        rw [show |(9899:ℚ)/10000 - 1| = 101/10000 from by
          rw [abs_of_nonpos (by norm_num)]; norm_num]
        norm_num]
    have h1 := h 30 73 1 1 (dfNum 30 73) resA _ (by norm_num) (by norm_num)
      (by norm_num) rfl bounds_xA sum_xA hok
    rw [show portfolioSum [((dfNum 30 73).ticker 0, (9899:ℚ)/10000)] = 9899/10000
      from by simp [portfolioSum]] at h1
    rw [show |(9899:ℚ)/10000 - 1| = 101/10000 from by
      rw [abs_of_nonpos (by norm_num)]; norm_num] at h1
    norm_num at h1
  · intro h
    have hok : optimize_portfolio 1 mwB (dfNum 30 2) resB =
        .ok ⟨[((dfNum 30 2).ticker 0, (5556:ℚ)/10000),
          ((dfNum 30 2).ticker 1, (4444:ℚ)/10000)], false⟩ := by
      rw [pipeline_ok (by norm_num) (by norm_num [mwB]) (by norm_num [mwB])
        (by decide) (by norm_num) rfl]
      rw [postProcess_resB]
      show (Except.ok ⟨[((dfNum 30 2).ticker 0, (5556:ℚ)/10000),
        ((dfNum 30 2).ticker 1, (4444:ℚ)/10000)],
        decide ((1:ℚ)/100 < |portfolioSum [((dfNum 30 2).ticker 0, (5556:ℚ)/10000),
          ((dfNum 30 2).ticker 1, (4444:ℚ)/10000)] - 1|)⟩ :
          Except PyExc MarkowitzOutput) = _
      rw [show decide ((1:ℚ)/100 <
          |portfolioSum [((dfNum 30 2).ticker 0, (5556:ℚ)/10000),
            ((dfNum 30 2).ticker 1, (4444:ℚ)/10000)] - 1|) = false from by
        rw [show portfolioSum [((dfNum 30 2).ticker 0, (5556:ℚ)/10000),
          ((dfNum 30 2).ticker 1, (4444:ℚ)/10000)] = 1 from by
          simp [portfolioSum]; norm_num]
        norm_num]
    have h1 := h 30 2 1 mwB (dfNum 30 2) resB _ (by norm_num)
      (by norm_num [mwB]) (by norm_num [mwB]) rfl
      (fun i => by
        fin_cases i <;> constructor <;>
          norm_num [resB, mwB, Matrix.cons_val_zero, Matrix.cons_val_one,
            Matrix.head_cons])
      (by rw [Fin.sum_univ_two];
          norm_num [resB, Matrix.cons_val_zero, Matrix.cons_val_one, Matrix.head_cons])
      hok
    have h2 := (h1 ((dfNum 30 2).ticker 0, (5556:ℚ)/10000) (by simp)).2
    norm_num [mwB] at h2

/-- C1 (amended): for a feasible solver output (`0 ≤ x_i ≤ maxWeight`),
every weight in the returned mapping lies strictly above `0.0001` and at
most `maxWeight + 0.00005` (rounding to four decimals can exceed the cap
by up to half a grid step), and the sum of the retained weights is not
enforced to be within `0.01` of `1.0`: the diagnostic flag fires exactly
when it deviates by more than `0.01`, and the map is returned unchanged
either way. -/
theorem C1_rounded_feasibility {mm nn : ℕ} (riskLevel maxWeight : ℚ)
    (df : DataFrame mm nn) (res : SolverResult nn) (out : MarkowitzOutput)
    (hx : ∀ i, 0 ≤ res.x i ∧ res.x i ≤ maxWeight)
    (hok : optimize_portfolio riskLevel maxWeight df res = .ok out) :
    (∀ tw ∈ out.portfolio, (1:ℚ)/10000 < tw.2 ∧ tw.2 ≤ maxWeight + 1/20000) ∧
    out.sumDiagnostic = decide ((1:ℚ)/100 < |portfolioSum out.portfolio - 1|) := by
  obtain ⟨hout, -, -, -⟩ := pipeline_ok_inv hok
  subst hout
  refine ⟨fun tw htw => ?_, rfl⟩
  obtain ⟨i, hlt, htw_eq⟩ := mem_postProcess htw
  subst htw_eq
  refine ⟨hlt, ?_⟩
  calc roundTo4 (res.x i) ≤ res.x i + 1/20000 := roundTo4_le_add _
    _ ≤ maxWeight + 1/20000 := by linarith [(hx i).2]

/-- Witness for C1 at the equal-weight two-asset output with
`maxWeight = 1/2`: the retained weight `1/2` satisfies the amended
bounds. -/
theorem C1_witness : (1:ℚ)/10000 < 1/2 ∧ (1:ℚ)/2 ≤ 1/2 + 1/20000 := by
  have hmem : ((dfNum 30 2).ticker 0, (1:ℚ)/2) ∈
      postProcess (dfNum 30 2).ticker resOK.x := by
    have e : roundTo4 (resOK.x 0) = 1/2 := by
      norm_num [resOK, roundTo4, round_eq]
    have hpos : (1:ℚ)/10000 < 1/2 := by norm_num
    rw [postProcess, show List.finRange 2 = [0, 1] from by decide]
    simp only [List.filterMap_cons, List.filterMap_nil, e, hpos, if_true]
    exact List.mem_cons_self _ _
  have happ := (C1_rounded_feasibility 1 (1/2) (dfNum 30 2) resOK _
    (fun i => ⟨by norm_num [resOK], by norm_num [resOK]⟩)
    (pipeline_ok (by norm_num) (by norm_num) (by norm_num) (by decide)
      (by norm_num) rfl)).1
  simpa using happ ((dfNum 30 2).ticker 0, (1:ℚ)/2) hmem

/-! ### Claim C8 -/

/-- The quadratic form of the sample covariance is a scaled sum of
squares: `wᵗ·Cov·w = (Σ_t ⟨w, centered row t⟩²) / (m - 1)`. -/
lemma quadForm_sampleCov {mm nn : ℕ} (r : Fin mm → Fin nn → ℚ) (w : Fin nn → ℚ) :
    quadForm (sampleCov r) w =
      (∑ t, (∑ i, w i * centered r t i)^2) / ((mm:ℚ) - 1) := by
  have expand : ∀ t : Fin mm, (∑ i, w i * centered r t i)^2 =
      ∑ i, ∑ j, w i * (centered r t i * centered r t j * w j) := by
    intro t
    rw [sq, Finset.sum_mul_sum]
    exact Finset.sum_congr rfl fun i _ => Finset.sum_congr rfl fun j _ => by ring
  rw [quadForm]
  simp_rw [sampleCov, div_mul_eq_mul_div, ← Finset.sum_div, ← mul_div_assoc,
    ← Finset.sum_div]
  rw [show (∑ t, (∑ i, w i * centered r t i)^2) =
      ∑ t, ∑ i, ∑ j, w i * (centered r t i * centered r t j * w j) from
    Finset.sum_congr rfl fun t _ => expand t]
  congr 1
  simp_rw [Finset.sum_mul, Finset.mul_sum]
  have swap1 : ∀ i : Fin nn,
      (∑ j, ∑ t, w i * (centered r t i * centered r t j * w j)) =
      ∑ t, ∑ j, w i * (centered r t i * centered r t j * w j) :=
    fun i => Finset.sum_comm
  simp_rw [swap1]
  rw [Finset.sum_comm]

/-- For the exact sample covariance the quadratic form is nonnegative at
every weight vector. -/
lemma quadForm_sampleCov_nonneg {mm nn : ℕ} (r : Fin mm → Fin nn → ℚ)
    (w : Fin nn → ℚ) : 0 ≤ quadForm (sampleCov r) w := by
  rw [quadForm_sampleCov]
  rcases Nat.eq_zero_or_pos mm with h | h
  · subst h
    simp
  · apply div_nonneg
    · exact Finset.sum_nonneg fun t _ => sq_nonneg _
    · have h1 : (1:ℚ) ≤ (mm:ℚ) := by exact_mod_cast h
      linarith

/-- C8 counterexample: the evaluation function `risk_constraint` builds
(line 51) applies no clamp: the argument handed to `np.sqrt` is the raw
quadratic form of whatever covariance matrix the closure holds, so for a
covariance with a negative quadratic form the square-root argument is
negative, not clamped at zero. -/
theorem C8_counterexample :
    ¬ (∀ (nn : ℕ) (cov : Fin nn → Fin nn → ℚ) (w : Fin nn → ℚ),
        riskSqrtArg cov w = riskSqrtArgClamped cov w ∧ 0 ≤ riskSqrtArg cov w) := by
  intro h
  have h1 := (h 1 (fun _ _ => -1) (fun _ => 1)).2
  rw [show riskSqrtArg (fun _ _ => (-1:ℚ)) (fun _ => 1) = -1 from by
    simp [riskSqrtArg, quadForm, Fin.sum_univ_one]] at h1
  norm_num at h1

/-- C8 (amended): line 51 passes the quadratic form to the square root
with no clamping applied — the argument is exactly `wᵗ·Cov·w`. For the
sample covariance computed by the pipeline the exact quadratic form is
provably nonnegative at every weight vector, so in exact arithmetic the
unclamped argument never goes negative and agrees with the clamped form
the spec prescribes; the clamp itself, guarding floating-point
near-singular cases, is absent from the code. -/
theorem C8_sqrt_argument_unclamped {mm nn : ℕ} (r : Fin mm → Fin nn → ℚ)
    (w : Fin nn → ℚ) :
    riskSqrtArg (sampleCov r) w = quadForm (sampleCov r) w ∧
    0 ≤ riskSqrtArg (sampleCov r) w ∧
    riskSqrtArg (sampleCov r) w = riskSqrtArgClamped (sampleCov r) w :=
  ⟨rfl, quadForm_sampleCov_nonneg r w,
   by rw [riskSqrtArgClamped, riskSqrtArg,
     max_eq_right (quadForm_sampleCov_nonneg r w)]⟩

/-! ### Claim C9 -/

/-- C9: the problem handed to the solver minimizes `-Σ(mean_i * w_i)`
with the column means of the return matrix, imposes the equality
constraint `Σ w_i - 1` and the risk inequality constraint of shape
`riskLevel - sqrt(wᵗ·Cov·w)` (represented by its bound and square-root
argument), bounds every weight to `[0, maxWeight]`, and starts from the
equal-weight point `1/n` in every component — which, for `n ≥ 1`,
satisfies the equality constraint exactly. -/
theorem C9_problem_construction {mm nn : ℕ} (r : Fin mm → Fin nn → ℚ)
    (riskLevel maxWeight : ℚ) :
    (∀ w, (buildProblem r riskLevel maxWeight).objective w =
      -(∑ i, ((∑ t, r t i) / (mm:ℚ)) * w i)) ∧
    (∀ w, (buildProblem r riskLevel maxWeight).eqConstraintVal w =
      (∑ i, w i) - 1) ∧
    (buildProblem r riskLevel maxWeight).riskBound = riskLevel ∧
    (∀ w, (buildProblem r riskLevel maxWeight).riskSqrtArgFun w =
      quadForm (sampleCov r) w) ∧
    (∀ i, (buildProblem r riskLevel maxWeight).lowerBound i = 0) ∧
    (∀ i, (buildProblem r riskLevel maxWeight).upperBound i = maxWeight) ∧
    (∀ i, (buildProblem r riskLevel maxWeight).initialPoint i = 1 / (nn:ℚ)) ∧
    (buildProblem r riskLevel maxWeight).maxIterations = 1000 ∧
    (1 ≤ nn → (buildProblem r riskLevel maxWeight).eqConstraintVal
      (buildProblem r riskLevel maxWeight).initialPoint = 0) := by
  refine ⟨fun w => rfl, fun w => rfl, rfl, fun w => rfl, fun i => rfl,
    fun i => rfl, fun i => rfl, rfl, fun h => ?_⟩
  show (∑ _i : Fin nn, 1 / (nn:ℚ)) - 1 = 0
  rw [Finset.sum_const, Finset.card_univ, Fintype.card_fin, nsmul_eq_mul]
  have hnn : (0:ℚ) < (nn:ℚ) := by exact_mod_cast h
  field_simp

/-- Witness for C9: for the 30×2 zero return matrix the equal-weight
initial point `1/2` satisfies the equality constraint exactly. -/
theorem C9_witness :
    (buildProblem (fun (_ : Fin 30) (_ : Fin 2) => (0:ℚ)) 1 (1/2)).eqConstraintVal
      (buildProblem (fun (_ : Fin 30) (_ : Fin 2) => (0:ℚ)) 1 (1/2)).initialPoint = 0 :=
  (C9_problem_construction (fun (_ : Fin 30) (_ : Fin 2) => (0:ℚ)) 1
    (1/2)).2.2.2.2.2.2.2.2 (by norm_num)
